import Mathlib

/-!
# Shallow embedding of the nes-rust emulator (starrhorne/nes-rust)

Each definition below translates one Rust item from `src/`, keeping the
source's names (`Pager::index` becomes `Pager.index`, and so on).  Machine
integers are modelled as `Nat` with explicit `% 2^w` where wrap-around
matters; Rust code that can panic is modelled as an `Option`-returning
function, `none` standing for the panic.
-/

namespace NesRust

/-! ## Pager (src/cartridge/pager.rs)

`Pager` wraps a byte vector; `data` is modelled as a `List Nat` of bytes and
is passed explicitly.  A `none` result models a Rust panic (explicit
`panic!` calls, `usize` underflow of `page_count - 1`, or an out-of-bounds
slice index `data[i]`). -/

inductive PageSize
  | oneKb
  | fourKb
  | eightKb
  | sixteenKb
deriving DecidableEq, Repr

/-- The numeric value of each `PageSize` variant (its Rust discriminant). -/
def PageSize.bytes : PageSize → Nat
  | .oneKb => 0x400
  | .fourKb => 0x1000
  | .eightKb => 0x2000
  | .sixteenKb => 0x4000

inductive Page
  | first (size : PageSize)
  | last (size : PageSize)
  | number (n : Nat) (size : PageSize)
  | fromEnd (n : Nat) (size : PageSize)
deriving DecidableEq, Repr

/-- `Pager::page_count`: panics ( `none` ) unless the page size divides the
data length evenly. -/
def Pager.pageCount (dataLen : Nat) (size : PageSize) : Option Nat :=
  if dataLen % size.bytes ≠ 0 then none
  else some (dataLen / size.bytes)

/-- `last_page = self.page_count(size) - 1` as computed inside
`Pager::index`; the `usize` subtraction underflows (debug panic) when the
page count is zero. -/
def Pager.lastPage (dataLen : Nat) (size : PageSize) : Option Nat := do
  let pc ← Pager.pageCount dataLen size
  if pc = 0 then none else some (pc - 1)

/-- The `Page::Number` arm of `Pager::index`: the offset guard uses a strict
comparison `offset > size`, and the page guard `n > last_page`. -/
def Pager.indexNumber (dataLen : Nat) (n : Nat) (size : PageSize)
    (offset : Nat) : Option Nat := do
  let lastPage ← Pager.lastPage dataLen size
  if offset > size.bytes then none
  else if n > lastPage then none
  else some (n * size.bytes + offset)

/-- `Pager::index`. -/
def Pager.index (dataLen : Nat) (page : Page) (offset : Nat) : Option Nat :=
  match page with
  | .first size => Pager.indexNumber dataLen 0 size offset
  | .last size => do
      let lastPage ← Pager.lastPage dataLen size
      Pager.indexNumber dataLen lastPage size offset
  | .number n size => Pager.indexNumber dataLen n size offset
  | .fromEnd n size => do
      let lastPage ← Pager.lastPage dataLen size
      if n > lastPage then none
      else Pager.indexNumber dataLen (lastPage - n) size offset

/-- `Pager::read`: `self.data[i]` panics when `i` is out of bounds. -/
def Pager.read (data : List Nat) (page : Page) (offset : Nat) : Option Nat := do
  let i ← Pager.index data.length page offset
  data.get? i

/-- `Pager::write`. -/
def Pager.write (data : List Nat) (page : Page) (offset : Nat) (value : Nat) :
    Option (List Nat) := do
  let i ← Pager.index data.length page offset
  if i < data.length then some (data.set i value) else none

/-! ## Mapper 0 / NROM (src/cartridge/mapper0.rs)

The `CartridgeData` of a mapper-0 cartridge is modelled by the byte lists of
its pagers plus the `chr_rom_pages` header field (the only header field the
mapper consults). -/

structure Mapper0 where
  prgRam : List Nat
  prgRom : List Nat
  chrRam : List Nat
  chrRom : List Nat
  chrRomPages : Nat
deriving DecidableEq, Repr

/-- `Mapper0::read_prg_byte`. -/
def Mapper0.readPrgByte (m : Mapper0) (address : Nat) : Option Nat :=
  if 0x6000 ≤ address ∧ address ≤ 0x7FFF then
    Pager.read m.prgRam (.first .eightKb) (address - 0x6000)
  else if 0x8000 ≤ address ∧ address ≤ 0xBFFF then
    Pager.read m.prgRom (.first .sixteenKb) (address - 0x8000)
  else if 0xC000 ≤ address ∧ address ≤ 0xFFFF then
    Pager.read m.prgRom (.last .sixteenKb) (address - 0xC000)
  else none

/-- `Mapper0::write_prg_byte`: only `0x6000...0x7FFF` is writable PRG RAM;
every other address — in particular the whole ROM region `0x8000...0xFFFF` —
falls into the catch-all arm `_ => panic!("bad address")`. -/
def Mapper0.writePrgByte (m : Mapper0) (address value : Nat) :
    Option Mapper0 :=
  if 0x6000 ≤ address ∧ address ≤ 0x7FFF then
    (Pager.write m.prgRam (.first .eightKb) (address - 0x6000) value).map
      fun ram => { m with prgRam := ram }
  else none

/-! ## Mapper 1 / MMC1 (src/cartridge/mapper1.rs) -/

structure ShiftRegister where
  value : Nat
  bitIndex : Nat
deriving DecidableEq, Repr

/-- `ShiftRegister::new` / `ShiftRegister::reset`. -/
def ShiftRegister.reset : ShiftRegister := { value := 0, bitIndex := 0 }

/-- `ShiftRegister::push`: returns the updated register together with
`Some(value)` exactly when the fifth bit has been pushed.  `n` is a `u8`. -/
def ShiftRegister.push (s : ShiftRegister) (n : Nat) :
    ShiftRegister × Option Nat :=
  if (n % 256) >>> 7 = 1 then
    (ShiftRegister.reset, none)
  else
    let value := s.value ||| ((n &&& 1) <<< s.bitIndex)
    if s.bitIndex = 4 then
      (ShiftRegister.reset, some value)
    else
      ({ value := value, bitIndex := s.bitIndex + 1 }, none)

/-- Mapper-1 state: the shift register, the control register (a plain `u8`
behind the `ControlRegister` bitfield) and the three bank registers.  The
`CartridgeData` pagers are carried as byte lists as for mapper 0. -/
structure Mapper1 where
  prgRam : List Nat
  prgRom : List Nat
  chrRam : List Nat
  chrRom : List Nat
  chrRomPages : Nat
  shift : ShiftRegister
  control : Nat
  prg0 : Nat
  chr0 : Nat
  chr1 : Nat
deriving DecidableEq, Repr

/-- `Mapper1::new` given cartridge data: `control` starts at
`0b0_11_10` (Consecutive / FixLast / Horizontal). -/
def Mapper1.new (prgRam prgRom chrRam chrRom : List Nat)
    (chrRomPages : Nat) : Mapper1 :=
  { prgRam := prgRam, prgRom := prgRom, chrRam := chrRam, chrRom := chrRom,
    chrRomPages := chrRomPages, shift := ShiftRegister.reset,
    control := 0b01110, prg0 := 0, chr0 := 0, chr1 := 0 }

/-- `Mapper1::write_shift`: pushes the value into the shift register and, on
the fifth non-reset push, commits the 5-bit value to the register selected by
the address range.  `none` models the `panic!("Invalid address")` arm. -/
def Mapper1.writeShift (m : Mapper1) (address value : Nat) : Option Mapper1 :=
  let (shift, committed) := m.shift.push value
  let m := { m with shift := shift }
  match committed with
  | none => some m
  | some shiftValue =>
    if 0x8000 ≤ address ∧ address ≤ 0x9FFF then
      some { m with control := shiftValue }
    else if 0xA000 ≤ address ∧ address ≤ 0xBFFF then
      some { m with chr0 := shiftValue &&& 0b11111 }
    else if 0xC000 ≤ address ∧ address ≤ 0xDFFF then
      some { m with chr1 := shiftValue &&& 0b11111 }
    else if 0xE000 ≤ address ∧ address ≤ 0xFFFF then
      some { m with prg0 := shiftValue &&& 0b1111 }
    else none

/-- `Mapper1::write_prg_byte` (the `Mapper` trait impl). -/
def Mapper1.writePrgByte (m : Mapper1) (address value : Nat) :
    Option Mapper1 :=
  if 0x6000 ≤ address ∧ address ≤ 0x7FFF then
    (Pager.write m.prgRam (.first .eightKb) (address - 0x6000) value).map
      fun ram => { m with prgRam := ram }
  else if 0x8000 ≤ address ∧ address ≤ 0xFFFF then
    Mapper1.writeShift m address value
  else none

/-! ## Mapper 4 / MMC3 (src/cartridge/mapper4.rs) -/

inductive Mirroring
  | horizontal
  | vertical
deriving DecidableEq, Repr

structure Mapper4 where
  prgRam : List Nat
  prgRom : List Nat
  chrRom : List Nat
  registers : Fin 8 → Nat
  index : Nat
  prgMode : Bool
  chrMode : Bool
  mirroring : Mirroring
  irqCounter : Nat
  irqPeriod : Nat
  irqEnabled : Bool
  irqReset : Bool
  irqFlag : Bool

/-- `Mapper4::new` given cartridge data. -/
def Mapper4.new (prgRam prgRom chrRom : List Nat) : Mapper4 :=
  { prgRam := prgRam, prgRom := prgRom, chrRom := chrRom,
    registers := fun _ => 0, index := 0, prgMode := false, chrMode := false,
    mirroring := .horizontal, irqCounter := 0, irqPeriod := 0,
    irqEnabled := false, irqReset := false, irqFlag := false }

/-- `Mapper4::write_prg_byte`: dispatch on `(address, address % 2)`.  The
catch-all arm `_ => ()` is a no-op, so writes only fail (`none`) on a PRG-RAM
pager panic.  Note the register-enable arm is `0xF000...0xFFFF`, so odd
writes in `0xE000...0xEFFF` land in the no-op arm. -/
def Mapper4.writePrgByte (m : Mapper4) (address value : Nat) :
    Option Mapper4 :=
  if 0x6000 ≤ address ∧ address ≤ 0x7FFF then
    (Pager.write m.prgRam (.first .eightKb) (address - 0x6000) value).map
      fun ram => { m with prgRam := ram }
  else if 0x8000 ≤ address ∧ address ≤ 0x9FFF ∧ address % 2 = 0 then
    some { m with index := value &&& 0b111,
                  prgMode := value &&& 0b01000000 ≠ 0,
                  chrMode := value &&& 0b10000000 ≠ 0 }
  else if 0x8000 ≤ address ∧ address ≤ 0x9FFF ∧ address % 2 = 1 then
    some { m with registers :=
      Function.update m.registers ⟨m.index % 8, Nat.mod_lt _ (by decide)⟩ value }
  else if 0xA000 ≤ address ∧ address ≤ 0xBFFF ∧ address % 2 = 0 then
    some { m with mirroring :=
      if value &&& 1 = 0 then .vertical else .horizontal }
  else if 0xC000 ≤ address ∧ address ≤ 0xDFFF ∧ address % 2 = 0 then
    some { m with irqPeriod := value }
  else if 0xC000 ≤ address ∧ address ≤ 0xDFFF ∧ address % 2 = 1 then
    some { m with irqReset := true }
  else if 0xE000 ≤ address ∧ address ≤ 0xFFFF ∧ address % 2 = 0 then
    some { m with irqEnabled := false, irqFlag := false }
  else if 0xF000 ≤ address ∧ address ≤ 0xFFFF ∧ address % 2 = 1 then
    some { m with irqEnabled := true }
  else
    some m

/-- `Mapper4::write_chr_byte` is an empty body: a no-op. -/
def Mapper4.writeChrByte (m : Mapper4) (_address _value : Nat) : Mapper4 := m

/-- `Mapper4::signal_scanline`. -/
def Mapper4.signalScanline (m : Mapper4) : Mapper4 :=
  if m.irqCounter = 0 ∨ m.irqReset then
    let m := if m.irqEnabled then { m with irqFlag := true } else m
    { m with irqCounter := m.irqPeriod }
  else
    { m with irqCounter := m.irqCounter - 1 }

/-! ## DMC channel (src/apu/dmc_channel.rs)

The cartridge handle (`Option<Rc<RefCell<Cartridge>>>`) is modelled as an
optional read function from PRG address to byte; `None` reads return `0`
exactly as in `DmcChannel::tick_read`. -/

/-- `dmc_channel::PERIODS`. -/
def dmcPeriods : List Nat :=
  [214, 190, 170, 160, 143, 127, 113, 107, 95, 80, 71, 64, 53, 42, 36, 27]

structure DmcChannel where
  cartridge : Option (Nat → Nat)
  irqEnabled : Bool
  irqFlag : Bool
  enabled : Bool
  output : Nat
  sampleAddress : Nat
  sampleLength : Nat
  currentAddress : Nat
  currentLength : Nat
  shiftRegister : Nat
  bitCount : Nat
  period : Nat
  counter : Nat
  looping : Bool
  cpuStallCycles : Nat

/-- `DmcChannel::new`: every numeric field starts at zero — in particular
`period = 0` and `counter = 0`. -/
def DmcChannel.new : DmcChannel :=
  { cartridge := none, irqEnabled := false, irqFlag := false,
    enabled := false, output := 0, sampleAddress := 0, sampleLength := 0,
    currentAddress := 0, currentLength := 0, shiftRegister := 0,
    bitCount := 0, period := 0, counter := 0, looping := false,
    cpuStallCycles := 0 }

/-- `DmcChannel::write_register` for `0x4010...0x4013` (`value` is a `u8`);
`none` models the catch-all `panic!()`. -/
def DmcChannel.writeRegister (d : DmcChannel) (address value : Nat) :
    Option DmcChannel :=
  if address = 0x4010 then
    let irqEnabled := value &&& 0b10000000 ≠ 0
    some { d with irqEnabled := irqEnabled,
                  irqFlag := d.irqFlag && irqEnabled,
                  looping := value &&& 0b01000000 ≠ 0,
                  period := dmcPeriods.getD (value % 256 &&& 0x0F) 0 }
  else if address = 0x4011 then
    some { d with output := value &&& 0b01111111 }
  else if address = 0x4012 then
    some { d with sampleAddress := 0xC000 + (value % 256) * 64 }
  else if address = 0x4013 then
    some { d with sampleLength := 1 + (value % 256) * 16 }
  else none

/-- `DmcChannel::restart`. -/
def DmcChannel.restart (d : DmcChannel) : DmcChannel :=
  { d with currentAddress := d.sampleAddress,
           currentLength := d.sampleLength }

/-- `DmcChannel::set_enabled` (reached from the `$4015` write in
`Apu::write_register`). -/
def DmcChannel.setEnabled (d : DmcChannel) (value : Bool) : DmcChannel :=
  let d := { d with irqFlag := false, enabled := value }
  if !d.enabled then
    { d with currentLength := 0 }
  else if d.currentLength = 0 then
    d.restart
  else
    d

/-- `DmcChannel::tick_read`. -/
def DmcChannel.tickRead (d : DmcChannel) : DmcChannel :=
  if d.currentLength > 0 ∧ d.bitCount = 0 then
    let byte := match d.cartridge with
      | some readPrg => readPrg d.currentAddress
      | none => 0
    let nextAddress := (d.currentAddress + 1) % 65536
    let d := { d with cpuStallCycles := d.cpuStallCycles + 4,
                      shiftRegister := byte,
                      bitCount := 8,
                      currentAddress :=
                        if nextAddress = 0 then 0x8000 else nextAddress,
                      currentLength := d.currentLength - 1 }
    if d.currentLength = 0 ∧ d.looping then
      d.restart
    else if d.currentLength = 0 ∧ d.irqEnabled then
      { d with irqFlag := true }
    else
      d
  else
    d

/-- `DmcChannel::tick_shift`: when the divider expires the code reloads it
with `self.period - 1` on a `u8`; `none` models the 8-bit underflow of that
subtraction (a panic in debug builds) which happens exactly when
`period = 0`. -/
def DmcChannel.tickShift (d : DmcChannel) : Option DmcChannel :=
  if d.counter = 0 then
    if d.period = 0 then none
    else
      let d := { d with counter := d.period - 1 }
      if d.bitCount > 0 then
        let d :=
          if d.shiftRegister &&& 1 = 1 then
            if d.output ≤ 125 then { d with output := d.output + 2 } else d
          else
            if d.output ≥ 2 then { d with output := d.output - 2 } else d
        some { d with shiftRegister := d.shiftRegister >>> 1,
                      bitCount := d.bitCount - 1 }
      else
        some d
  else
    some { d with counter := d.counter - 1 }

/-- `DmcChannel::tick_sequencer`. -/
def DmcChannel.tickSequencer (d : DmcChannel) : Option DmcChannel :=
  if d.enabled then
    DmcChannel.tickShift (DmcChannel.tickRead d)
  else
    some d

/-! ## APU mixer (src/apu/mod.rs, `Apu::sample`)

The mixer arithmetic is performed on `f64` in the source; it is modelled
over `ℚ`, where every literal appearing in the source (`95.88`, `8218.0`,
`100.0`) is exactly representable, so the constants themselves are carried
over verbatim. -/

/-- The pulse mix of `Apu::sample`:
`pulse_out = 95.88 / ((8218.0 / (p0 + p1)) + 100.0)` — the divisor literal
in the source is `8218.0`. -/
def Apu.pulseOut (p0 p1 : ℚ) : ℚ :=
  95.88 / ((8218 / (p0 + p1)) + 100)

/-- Modelled from the spec: the pulse mix formula the spec gives
(`pulse_out = 95.88 / (8128/(p0+p1) + 100)`, the nesdev APU-mixer formula
that the comment above `Apu::sample` cites), whose divisor is `8128`. -/
def specPulseOut (p0 p1 : ℚ) : ℚ :=
  95.88 / ((8128 / (p0 + p1)) + 100)

/-! ## PPU loopy address (src/ppu/address.rs)

`Address` is a 16-bit register described by a `bitfield!` declaration.  A
register value is carried as a `Nat` (always reduced mod `2^16`); reading
the field of width `width` at bit `lo` is `x / 2^lo % 2^width`, and writing
it replaces exactly those bits, the written value being masked to the field
width exactly as the bitfield setter does. -/

/-- Generic bitfield read: bits `lo .. lo+width-1` of the 16-bit value. -/
def Address.getField (x lo width : Nat) : Nat :=
  x % 65536 / 2 ^ lo % 2 ^ width

/-- Generic bitfield write: replace bits `lo .. lo+width-1` of the 16-bit
value by `v` masked to `width` bits. -/
def Address.setField (x lo width v : Nat) : Nat :=
  let xm := x % 65536
  xm % 2 ^ lo + v % 2 ^ width * 2 ^ lo + xm / 2 ^ (lo + width) * 2 ^ (lo + width)

/-- `coarse_x`: bits `4, 0`. -/
def Address.coarseX (x : Nat) : Nat := Address.getField x 0 5

def Address.setCoarseX (x v : Nat) : Nat := Address.setField x 0 5 v

/-- `coarse_y`: bits `9, 5`. -/
def Address.coarseY (x : Nat) : Nat := Address.getField x 5 5

def Address.setCoarseY (x v : Nat) : Nat := Address.setField x 5 5 v

/-- `nametable`: bits `11, 10`. -/
def Address.nametable (x : Nat) : Nat := Address.getField x 10 2

def Address.setNametable (x v : Nat) : Nat := Address.setField x 10 2 v

/-- `fine_y`: bits `14, 12` — writing a value `≥ 4` sets bit 14. -/
def Address.fineY (x : Nat) : Nat := Address.getField x 12 3

def Address.setFineY (x v : Nat) : Nat := Address.setField x 12 3 v

/-- `address`: bits `13, 0`, the full 14-bit address from PPUADDR. -/
def Address.address (x : Nat) : Nat := Address.getField x 0 14

/-- `high_byte` / `set_high_byte`: bits `13, 8` — a 6-bit field; the setter
touches bits 8..13 only and leaves bit 14 alone. -/
def Address.highByte (x : Nat) : Nat := Address.getField x 8 6

def Address.setHighByte (x v : Nat) : Nat := Address.setField x 8 6 v

/-- `low_byte` / `set_low_byte`: bits `7, 0`. -/
def Address.lowByte (x : Nat) : Nat := Address.getField x 0 8

def Address.setLowByte (x v : Nat) : Nat := Address.setField x 0 8 v

/-- `get`: bits `14, 0`, the full data. -/
def Address.get (x : Nat) : Nat := Address.getField x 0 15

/-! ## PPU control and status bitfields (src/ppu/control.rs, status.rs) -/

/-- `Control::nmi_on_vblank`: bit 7 of the control byte. -/
def Control.nmiOnVblank (c : Nat) : Bool := c % 256 / 128 = 1

/-- `Control::nametable`: bits `1, 0` of the control byte. -/
def Control.nametable (c : Nat) : Nat := c % 4

/-- `Status::vblank`: bit 7 of the status byte. -/
def Status.vblank (s : Nat) : Bool := s % 256 / 128 = 1

/-! ## PPU register file (src/ppu/registers.rs)

The `vram` and `oam_ram` fields of `Registers` are omitted: none of the
operations embedded below (`write_control`, `write_scroll`,
`write_address`) reads or writes them. -/

structure Registers where
  tAddress : Nat
  vAddress : Nat
  fineX : Nat
  oamAddress : Nat
  control : Nat
  mask : Nat
  status : Nat
  latch : Bool
  openBus : Nat
  forceNmi : Bool
  vblankSuppress : Bool
deriving DecidableEq, Repr

/-- `Registers::new` (including the `reset()` it performs). -/
def Registers.new : Registers :=
  { tAddress := 0, vAddress := 0, fineX := 0, oamAddress := 0,
    control := 0, mask := 0, status := 0, latch := false, openBus := 0,
    forceNmi := false, vblankSuppress := false }

/-- `Registers::write_control` (`$2000` write; `value` is a `u8`): raises
`force_nmi` on every 0→1 transition of the NMI-on-VBlank bit — the
condition does not consult `status.vblank`. -/
def Registers.writeControl (r : Registers) (value : Nat) : Registers :=
  let control := value % 256
  let r :=
    if !(Control.nmiOnVblank r.control) && Control.nmiOnVblank control then
      { r with forceNmi := true }
    else r
  let r := { r with control := control }
  { r with tAddress :=
      Address.setNametable r.tAddress (Control.nametable r.control) }

/-- `Registers::write_scroll` (`$2005` write; `value >> 3` is `value / 8`
and `value & 0b111` is `value % 8` on a `u8`). -/
def Registers.writeScroll (r : Registers) (value : Nat) : Registers :=
  let value := value % 256
  if r.latch then
    let t := Address.setCoarseY (Address.setFineY r.tAddress value) (value / 8)
    { r with tAddress := t, latch := !r.latch }
  else
    let t := Address.setCoarseX r.tAddress (value / 8)
    { r with fineX := value % 8, tAddress := t, latch := !r.latch }

/-- `Registers::write_address` (`$2006` write). -/
def Registers.writeAddress (r : Registers) (value : Nat) : Registers :=
  if r.latch then
    let t := Address.setLowByte r.tAddress value
    { r with tAddress := t, vAddress := t, latch := !r.latch }
  else
    let t := Address.setHighByte r.tAddress value
    { r with tAddress := t, latch := !r.latch }

/-! ## Bus (src/bus.rs)

`Bus::tick` drives the sub-components; the APU, PPU and cartridge states are
abstracted as type parameters `A`, `P`, `C` together with their tick
functions, mirroring the fact that `Apu::tick`, `Ppu::tick`,
`Ppu::tick_decay` and `Cartridge::signal_scanline` live in other modules.
The `ram`, `controller_0` and `controller_1` fields are omitted:
`Bus::tick` never touches them. -/

inductive PpuResult
  | nmi
  | draw
  | scanline
  | none
deriving DecidableEq, Repr

structure Bus (A P C : Type) where
  apu : A
  ppu : P
  cartridge : Option C
  cycles : Nat
  nmi : Option Nat
  draw : Bool
  cpuStallCycles : Nat

/-- `Interrupt::tick` acting on the `schedule` field. -/
def Interrupt.tick : Option Nat → Option Nat
  | some v => some (if v > 0 then v - 1 else v)
  | Option.none => Option.none

/-- `Bus::handle_ppu_result`. -/
def Bus.handlePpuResult {A P C : Type} (signalScanline : C → C)
    (s : Bus A P C) : PpuResult → Bus A P C
  | .nmi => { s with nmi := some 1 }
  | .scanline =>
      match s.cartridge with
      | some c => { s with cartridge := some (signalScanline c) }
      | Option.none => s
  | .draw => { s with draw := true }
  | .none => s

/-- `Bus::tick`: increment the 64-bit cycle counter, tick the APU once with
the new count, tick the NMI schedule, decay the PPU open bus every 10,000th
cycle, then tick the PPU three times, handling each result. -/
def Bus.tick {A P C : Type} (apuTick : A → Nat → A)
    (ppuTick : P → P × PpuResult) (ppuTickDecay : P → P)
    (signalScanline : C → C) (s : Bus A P C) : Bus A P C :=
  let s := { s with cycles := (s.cycles + 1) % 2 ^ 64 }
  let c := s.cycles
  let s := { s with apu := apuTick s.apu c }
  let s := { s with nmi := Interrupt.tick s.nmi }
  let s := if c % 10000 = 0 then { s with ppu := ppuTickDecay s.ppu } else s
  let (p, r) := ppuTick s.ppu
  let s := Bus.handlePpuResult signalScanline { s with ppu := p } r
  let (p, r) := ppuTick s.ppu
  let s := Bus.handlePpuResult signalScanline { s with ppu := p } r
  let (p, r) := ppuTick s.ppu
  Bus.handlePpuResult signalScanline { s with ppu := p } r

/-- The cycle-counting instantiation of `Bus.tick`: the APU state counts
`Apu::tick` calls, the PPU state counts `Ppu::tick` calls (each `Ppu::tick`
runs `Renderer::tick` and then advances exactly one dot via
`Renderer::step`), `tick_decay` touches only the open-bus byte and advances
no dots, and each counted `Ppu::tick` reports `PpuResult::None`. -/
def Bus.countingTick : Bus Nat Nat Unit → Bus Nat Nat Unit :=
  Bus.tick (fun a _ => a + 1) (fun p => (p + 1, PpuResult.none)) id id

/-! ## CPU opcode dispatch (src/cpu.rs, `Cpu::execute_instruction`)

Each arm of the `match opcode` either calls an instruction helper (modelled
as `instr name mode`, with an empty mode string for helpers taking no
addressing mode), prints a debug line and returns normally (`ping`, the
`0x02` arm), or hits the catch-all
`_ => panic!("unimplemented or illegal instruction")` (`fatal`). -/

inductive ExecOutcome
  | instr (name mode : String)
  | ping
  | fatal
deriving DecidableEq, Repr

set_option maxHeartbeats 1600000 in
/-- `Cpu::execute_instruction`, reduced to which arm the opcode byte
selects. -/
def Cpu.executeInstruction (opcode : Nat) : ExecOutcome :=
  match opcode with
  | 0xa1 => .instr "lda" "IndirectX"
  | 0xa5 => .instr "lda" "ZeroPage"
  | 0xa9 => .instr "lda" "Immediate"
  | 0xad => .instr "lda" "Absolute"
  | 0xb1 => .instr "lda" "IndirectY"
  | 0xb5 => .instr "lda" "ZeroPageX"
  | 0xb9 => .instr "lda" "AbsoluteY"
  | 0xbd => .instr "lda" "AbsoluteX"
  | 0xa2 => .instr "ldx" "Immediate"
  | 0xa6 => .instr "ldx" "ZeroPage"
  | 0xb6 => .instr "ldx" "ZeroPageY"
  | 0xae => .instr "ldx" "Absolute"
  | 0xbe => .instr "ldx" "AbsoluteY"
  | 0xa0 => .instr "ldy" "Immediate"
  | 0xa4 => .instr "ldy" "ZeroPage"
  | 0xb4 => .instr "ldy" "ZeroPageX"
  | 0xac => .instr "ldy" "Absolute"
  | 0xbc => .instr "ldy" "AbsoluteX"
  | 0x85 => .instr "sta" "ZeroPage"
  | 0x95 => .instr "sta" "ZeroPageX"
  | 0x8d => .instr "sta" "Absolute"
  | 0x9d => .instr "sta" "AbsoluteXForceTick"
  | 0x99 => .instr "sta" "AbsoluteYForceTick"
  | 0x81 => .instr "sta" "IndirectX"
  | 0x91 => .instr "sta" "IndirectYForceTick"
  | 0x86 => .instr "stx" "ZeroPage"
  | 0x96 => .instr "stx" "ZeroPageY"
  | 0x8e => .instr "stx" "Absolute"
  | 0x84 => .instr "sty" "ZeroPage"
  | 0x94 => .instr "sty" "ZeroPageX"
  | 0x8c => .instr "sty" "Absolute"
  | 0x69 => .instr "adc" "Immediate"
  | 0x65 => .instr "adc" "ZeroPage"
  | 0x75 => .instr "adc" "ZeroPageX"
  | 0x6d => .instr "adc" "Absolute"
  | 0x7d => .instr "adc" "AbsoluteX"
  | 0x79 => .instr "adc" "AbsoluteY"
  | 0x61 => .instr "adc" "IndirectX"
  | 0x71 => .instr "adc" "IndirectY"
  | 0xe9 => .instr "sbc" "Immediate"
  | 0xe5 => .instr "sbc" "ZeroPage"
  | 0xf5 => .instr "sbc" "ZeroPageX"
  | 0xed => .instr "sbc" "Absolute"
  | 0xfd => .instr "sbc" "AbsoluteX"
  | 0xf9 => .instr "sbc" "AbsoluteY"
  | 0xe1 => .instr "sbc" "IndirectX"
  | 0xf1 => .instr "sbc" "IndirectY"
  | 0xc9 => .instr "cmp" "Immediate"
  | 0xc5 => .instr "cmp" "ZeroPage"
  | 0xd5 => .instr "cmp" "ZeroPageX"
  | 0xcd => .instr "cmp" "Absolute"
  | 0xdd => .instr "cmp" "AbsoluteX"
  | 0xd9 => .instr "cmp" "AbsoluteY"
  | 0xc1 => .instr "cmp" "IndirectX"
  | 0xd1 => .instr "cmp" "IndirectY"
  | 0xe0 => .instr "cpx" "Immediate"
  | 0xe4 => .instr "cpx" "ZeroPage"
  | 0xec => .instr "cpx" "Absolute"
  | 0xc0 => .instr "cpy" "Immediate"
  | 0xc4 => .instr "cpy" "ZeroPage"
  | 0xcc => .instr "cpy" "Absolute"
  | 0x29 => .instr "and" "Immediate"
  | 0x25 => .instr "and" "ZeroPage"
  | 0x35 => .instr "and" "ZeroPageX"
  | 0x2d => .instr "and" "Absolute"
  | 0x3d => .instr "and" "AbsoluteX"
  | 0x39 => .instr "and" "AbsoluteY"
  | 0x21 => .instr "and" "IndirectX"
  | 0x31 => .instr "and" "IndirectY"
  | 0x09 => .instr "ora" "Immediate"
  | 0x05 => .instr "ora" "ZeroPage"
  | 0x15 => .instr "ora" "ZeroPageX"
  | 0x0d => .instr "ora" "Absolute"
  | 0x1d => .instr "ora" "AbsoluteX"
  | 0x19 => .instr "ora" "AbsoluteY"
  | 0x01 => .instr "ora" "IndirectX"
  | 0x11 => .instr "ora" "IndirectY"
  | 0x49 => .instr "eor" "Immediate"
  | 0x45 => .instr "eor" "ZeroPage"
  | 0x55 => .instr "eor" "ZeroPageX"
  | 0x4d => .instr "eor" "Absolute"
  | 0x5d => .instr "eor" "AbsoluteX"
  | 0x59 => .instr "eor" "AbsoluteY"
  | 0x41 => .instr "eor" "IndirectX"
  | 0x51 => .instr "eor" "IndirectY"
  | 0x24 => .instr "bit" "ZeroPage"
  | 0x2c => .instr "bit" "Absolute"
  | 0x2a => .instr "rol_a" ""
  | 0x26 => .instr "rol" "ZeroPage"
  | 0x36 => .instr "rol" "ZeroPageX"
  | 0x2e => .instr "rol" "Absolute"
  | 0x3e => .instr "rol" "AbsoluteXForceTick"
  | 0x6a => .instr "ror_a" ""
  | 0x66 => .instr "ror" "ZeroPage"
  | 0x76 => .instr "ror" "ZeroPageX"
  | 0x6e => .instr "ror" "Absolute"
  | 0x7e => .instr "ror" "AbsoluteXForceTick"
  | 0x0a => .instr "asl_a" ""
  | 0x06 => .instr "asl" "ZeroPage"
  | 0x16 => .instr "asl" "ZeroPageX"
  | 0x0e => .instr "asl" "Absolute"
  | 0x1e => .instr "asl" "AbsoluteXForceTick"
  | 0x4a => .instr "lsr_a" ""
  | 0x46 => .instr "lsr" "ZeroPage"
  | 0x56 => .instr "lsr" "ZeroPageX"
  | 0x4e => .instr "lsr" "Absolute"
  | 0x5e => .instr "lsr" "AbsoluteXForceTick"
  | 0xe6 => .instr "inc" "ZeroPage"
  | 0xf6 => .instr "inc" "ZeroPageX"
  | 0xee => .instr "inc" "Absolute"
  | 0xfe => .instr "inc" "AbsoluteXForceTick"
  | 0xc6 => .instr "dec" "ZeroPage"
  | 0xd6 => .instr "dec" "ZeroPageX"
  | 0xce => .instr "dec" "Absolute"
  | 0xde => .instr "dec" "AbsoluteXForceTick"
  | 0xe8 => .instr "inx" ""
  | 0xca => .instr "dex" ""
  | 0xc8 => .instr "iny" ""
  | 0x88 => .instr "dey" ""
  | 0xaa => .instr "tax" ""
  | 0xa8 => .instr "tay" ""
  | 0x8a => .instr "txa" ""
  | 0x98 => .instr "tya" ""
  | 0x9a => .instr "txs" ""
  | 0xba => .instr "tsx" ""
  | 0x18 => .instr "clc" ""
  | 0x38 => .instr "sec" ""
  | 0x58 => .instr "cli" ""
  | 0x78 => .instr "sei" ""
  | 0xb8 => .instr "clv" ""
  | 0xd8 => .instr "cld" ""
  | 0xf8 => .instr "sed" ""
  | 0x10 => .instr "bpl" ""
  | 0x30 => .instr "bmi" ""
  | 0x50 => .instr "bvc" ""
  | 0x70 => .instr "bvs" ""
  | 0x90 => .instr "bcc" ""
  | 0xb0 => .instr "bcs" ""
  | 0xd0 => .instr "bne" ""
  | 0xf0 => .instr "beq" ""
  | 0x4c => .instr "jmp" "Absolute"
  | 0x6c => .instr "jmp" "Indirect"
  | 0x20 => .instr "jsr" ""
  | 0x60 => .instr "rts" ""
  | 0x00 => .instr "brk" ""
  | 0x40 => .instr "rti" ""
  | 0x48 => .instr "pha" ""
  | 0x68 => .instr "pla" ""
  | 0x08 => .instr "php" ""
  | 0x28 => .instr "plp" ""
  | 0xea => .instr "nop" ""
  | 0x1A | 0x3A | 0x5A | 0x7A | 0xDA | 0xFA => .instr "nop" ""
  | 0x0C => .instr "nop_read" "Absolute"
  | 0x1C | 0x3C | 0x5C | 0x7C | 0xDC | 0xFC => .instr "nop_read" "AbsoluteX"
  | 0x04 | 0x44 | 0x64 => .instr "nop_read" "ZeroPage"
  | 0x14 | 0x34 | 0x54 | 0x74 | 0xd4 | 0xf4 => .instr "nop_read" "ZeroPageX"
  | 0x80 | 0x82 | 0x89 | 0xc2 | 0xe2 => .instr "nop_read" "Immediate"
  | 0x07 => .instr "slo" "ZeroPage"
  | 0x17 => .instr "slo" "ZeroPageX"
  | 0x03 => .instr "slo" "IndirectX"
  | 0x13 => .instr "slo" "IndirectY"
  | 0x0F => .instr "slo" "Absolute"
  | 0x1F => .instr "slo" "AbsoluteX"
  | 0x1B => .instr "slo" "AbsoluteY"
  | 0x27 => .instr "rla" "ZeroPage"
  | 0x37 => .instr "rla" "ZeroPageX"
  | 0x23 => .instr "rla" "IndirectX"
  | 0x33 => .instr "rla" "IndirectY"
  | 0x2F => .instr "rla" "Absolute"
  | 0x3F => .instr "rla" "AbsoluteX"
  | 0x3B => .instr "rla" "AbsoluteY"
  | 0x47 => .instr "sre" "ZeroPage"
  | 0x57 => .instr "sre" "ZeroPageX"
  | 0x43 => .instr "sre" "IndirectX"
  | 0x53 => .instr "sre" "IndirectY"
  | 0x4F => .instr "sre" "Absolute"
  | 0x5F => .instr "sre" "AbsoluteX"
  | 0x5B => .instr "sre" "AbsoluteY"
  | 0x67 => .instr "rra" "ZeroPage"
  | 0x77 => .instr "rra" "ZeroPageX"
  | 0x63 => .instr "rra" "IndirectX"
  | 0x73 => .instr "rra" "IndirectY"
  | 0x6F => .instr "rra" "Absolute"
  | 0x7F => .instr "rra" "AbsoluteX"
  | 0x7B => .instr "rra" "AbsoluteY"
  | 0x87 => .instr "sax" "ZeroPage"
  | 0x97 => .instr "sax" "ZeroPageY"
  | 0x83 => .instr "sax" "IndirectX"
  | 0x8F => .instr "sax" "Absolute"
  | 0xA7 => .instr "lax" "ZeroPage"
  | 0xB7 => .instr "lax" "ZeroPageY"
  | 0xA3 => .instr "lax" "IndirectX"
  | 0xB3 => .instr "lax" "IndirectY"
  | 0xAF => .instr "lax" "Absolute"
  | 0xBF => .instr "lax" "AbsoluteY"
  | 0xC7 => .instr "dcp" "ZeroPage"
  | 0xD7 => .instr "dcp" "ZeroPageX"
  | 0xC3 => .instr "dcp" "IndirectX"
  | 0xD3 => .instr "dcp" "IndirectY"
  | 0xCF => .instr "dcp" "Absolute"
  | 0xDF => .instr "dcp" "AbsoluteX"
  | 0xDB => .instr "dcp" "AbsoluteY"
  | 0xE7 => .instr "isc" "ZeroPage"
  | 0xF7 => .instr "isc" "ZeroPageX"
  | 0xE3 => .instr "isc" "IndirectX"
  | 0xF3 => .instr "isc" "IndirectY"
  | 0xEF => .instr "isc" "Absolute"
  | 0xFF => .instr "isc" "AbsoluteX"
  | 0xFB => .instr "isc" "AbsoluteY"
  | 0x0B | 0x2B => .instr "anc" ""
  | 0x4B => .instr "alr" ""
  | 0x6B => .instr "arr" ""
  | 0x8B => .instr "xaa" ""
  | 0xAB => .instr "lxa" ""
  | 0xCB => .instr "axs" ""
  | 0xEB => .instr "sbc_nop" ""
  | 0x93 => .instr "ahx" "IndirectY"
  | 0x9F => .instr "ahx" "AbsoluteY"
  | 0x9c => .instr "shy" ""
  | 0x9e => .instr "shx" ""
  | 0x9b => .instr "tas" "AbsoluteY"
  | 0xbb => .instr "las" "AbsoluteY"
  | 0x02 => .ping
  | _ => .fatal

/-! ## Concrete states used by the theorems below -/

/-- A mapper-0 cartridge shaped like the smallest NROM layout: 8 KiB of PRG
RAM, 32 KiB of PRG ROM, 8 KiB of CHR ROM. -/
def mapper0Sample : Mapper0 :=
  { prgRam := List.replicate 0x2000 0, prgRom := List.replicate 0x8000 0,
    chrRam := [], chrRom := List.replicate 0x2000 0, chrRomPages := 1 }

/-- A fresh MMC1 whose data pagers are irrelevant to the serial port. -/
def mapper1Sample : Mapper1 := Mapper1.new [] [] [] [] 0

/-- `mapper1Sample` after five writes of `0` to `$8000`, which commit
control value `0` on the fifth push. -/
def mapper1ZeroControl : Option Mapper1 :=
  (Mapper1.writePrgByte mapper1Sample 0x8000 0).bind fun m =>
    (Mapper1.writePrgByte m 0x8000 0).bind fun m =>
      (Mapper1.writePrgByte m 0x8000 0).bind fun m =>
        (Mapper1.writePrgByte m 0x8000 0).bind fun m =>
          Mapper1.writePrgByte m 0x8000 0

/-- An MMC3 whose reload flag has been set (an odd `$C000–$DFFF` write) and
whose IRQs are enabled, mid-countdown. -/
def mapper4Sample : Mapper4 :=
  { Mapper4.new [] [] [] with
      irqReset := true, irqEnabled := true, irqPeriod := 5, irqCounter := 3 }

/-- A DMC channel whose period has been programmed (the smallest entry of
`PERIODS` is 27). -/
def dmcWithPeriod : DmcChannel := { DmcChannel.new with period := 27 }

/-- Registers after the write sequence `$2005 ← 0`, `$2005 ← 4` (the second
scroll write stores `fine_y = 4`, setting bit 14 of `t`), then
`$2006 ← 0`, `$2006 ← 0` from the reset state. -/
def registersAfter2006Trace : Registers :=
  Registers.writeAddress (Registers.writeAddress
    (Registers.writeScroll (Registers.writeScroll Registers.new 0) 4) 0) 0

/-- The counting bus in its `Bus::new` configuration (`cycles = 0`, no
cartridge, no scheduled NMI). -/
def busNewCounting : Bus Nat Nat Unit :=
  { apu := 0, ppu := 0, cartridge := none, cycles := 0, nmi := none,
    draw := false, cpuStallCycles := 0 }

/-! ## Theorems -/

/-- C5: the claim says the pulse mixer divides by the constant `8128`; the
source of `Apu::sample` divides by `8218.0` even though its comment cites
the nesdev APU-mixer formula, so at the sample inputs `p0 = p1 = 15` the
code's pulse mix differs from the spec's formula. -/
theorem c5_pulse_mixer_divisor_wrong :
    Apu.pulseOut 15 15 ≠ specPulseOut 15 15 ∧ (8218 : ℚ) ≠ 8128 := by
  constructor
  · unfold Apu.pulseOut specPulseOut
    norm_num
  · norm_num

/-- C6: the claim says `Pager::read`/`write` are fatal whenever
`offset ≥ page size`.  The guard in `Pager::index` is the strict
`offset > size`, so an offset exactly equal to the page size is accepted:
on a two-page 1-KiB pager, `index` returns the index of the first byte of
the following page and `read` returns that byte (here `9`). -/
theorem c6_pager_offset_eq_page_size_not_fatal :
    PageSize.oneKb.bytes = 0x400 ∧
    Pager.index 0x800 (Page.number 0 PageSize.oneKb) 0x400 = some 0x400 ∧
    Pager.read (List.replicate 0x400 7 ++ List.replicate 0x400 9)
      (Page.number 0 PageSize.oneKb) 0x400 = some 9 := by
  refine ⟨rfl, rfl, ?_⟩
  have hlen : (List.replicate 0x400 (7 : Nat) ++
      List.replicate 0x400 (9 : Nat)).length = 0x800 := by
    rw [List.length_append, List.length_replicate, List.length_replicate]
  unfold Pager.read
  rw [hlen]
  rw [show Pager.index 0x800 (Page.number 0 PageSize.oneKb) 0x400 =
      some 0x400 from rfl]
  rw [Option.bind_eq_bind, Option.some_bind]
  rw [List.get?_eq_getElem?,
      List.getElem?_append_right (by rw [List.length_replicate]),
      List.length_replicate, List.getElem?_replicate]
  norm_num

/-- C7: the claim says every unimplemented opcode panics; the `0x02` arm of
`Cpu::execute_instruction` instead prints a debug `PING` line and returns
normally, so `0x02` does not reach the catch-all panic arm. -/
theorem c7_opcode_02_returns_normally :
    Cpu.executeInstruction 0x02 = ExecOutcome.ping ∧
    ExecOutcome.ping ≠ ExecOutcome.fatal := by
  exact ⟨rfl, by decide⟩

/-- C4 counterexample: from the reset state (`status.vblank = 0`), writing
`$80` to `$2000` still raises `force_nmi`, contradicting the claim that the
flag is not raised when `status.vblank` is 0. -/
theorem c4_counterexample_force_nmi_without_vblank :
    Status.vblank Registers.new.status = false ∧
    Control.nmiOnVblank Registers.new.control = false ∧
    (Registers.new.writeControl 0x80).forceNmi = true := by decide

/-- C4 (amended): a `$2000` write raises `force_nmi` exactly on a 0→1
transition of the NMI-on-VBlank bit, regardless of `status.vblank` (which
the write neither reads nor changes). -/
theorem c4_amended_force_nmi_ignores_vblank (r : Registers) (value : Nat) :
    (r.writeControl value).forceNmi =
      (r.forceNmi ||
        (!(Control.nmiOnVblank r.control) && Control.nmiOnVblank value)) ∧
    (r.writeControl value).status = r.status := by
  have hv : Control.nmiOnVblank (value % 256) = Control.nmiOnVblank value := by
    unfold Control.nmiOnVblank
    rw [Nat.mod_mod_of_dvd value (dvd_refl 256)]
  simp only [Registers.writeControl, hv]
  split
  next hb =>
    simp [hb]
  next hb =>
    rw [Bool.not_eq_true] at hb
    simp [hb]

/-- C8 counterexample: on the sample NROM cartridge, a CPU write to
`$8000` hits the catch-all `panic!("bad address")` arm of
`Mapper0::write_prg_byte` — it does not return normally with the state
unchanged. -/
theorem c8_counterexample_rom_write_panics :
    Mapper0.writePrgByte mapper0Sample 0x8000 0 = none ∧
    Mapper0.writePrgByte mapper0Sample 0x8000 0 ≠ some mapper0Sample := by
  constructor
  · rfl
  · intro h
    exact Option.noConfusion h

/-- C8 (amended): for a Mapper 0 cartridge, a CPU write to any address in
`$8000–$FFFF` is fatal (the `panic!("bad address")` arm), not ignored. -/
theorem c8_amended_rom_write_fatal (m : Mapper0) (a v : Nat)
    (h1 : 0x8000 ≤ a) (h2 : a ≤ 0xFFFF) :
    Mapper0.writePrgByte m a v = none := by
  unfold Mapper0.writePrgByte
  rw [if_neg]
  omega

/-- C8 witness for the amended theorem at a concrete input. -/
theorem c8_witness :
    Mapper0.writePrgByte mapper0Sample 0x9000 5 = none :=
  c8_amended_rom_write_fatal mapper0Sample 0x9000 5 (by decide) (by decide)

/-- C3 counterexample: commit control value `0` (five pushes of `0` at
`$8000`), then write `0x80`.  The claim predicts
`control = 0 OR 0x0C = 0x0C`; the code leaves `control = 0`: the bit-7
reset arm of `ShiftRegister::push` only clears the shift register and
`Mapper1::write_shift` commits nothing, so control is never ORed. -/
theorem c3_counterexample_no_control_or :
    (mapper1ZeroControl.bind fun m =>
        Mapper1.writePrgByte m 0x8000 0x80).map Mapper1.control = some 0 ∧
    mapper1ZeroControl.map Mapper1.control = some 0 ∧
    ((0 : Nat) ||| 0x0C) = 0x0C ∧ (0x0C : Nat) ≠ 0 := by decide

/-- C3 (amended): for every MMC1 state, a CPU write to `$8000–$FFFF` whose
value has bit 7 set resets the serial shift register to 0, commits no bank
register, and leaves the control register (and every other field)
unchanged — it is not ORed with `0x0C`. -/
theorem c3_amended_reset_write (m : Mapper1) (address value : Nat)
    (h1 : 0x8000 ≤ address) (h2 : address ≤ 0xFFFF)
    (h7 : (value % 256) >>> 7 = 1) :
    Mapper1.writePrgByte m address value =
      some { m with shift := ShiftRegister.reset } := by
  unfold Mapper1.writePrgByte
  rw [if_neg (by omega), if_pos (by omega)]
  unfold Mapper1.writeShift ShiftRegister.push
  rw [if_pos h7]

/-- C3 witness for the amended theorem at a concrete input. -/
theorem c3_witness :
    Mapper1.writePrgByte mapper1Sample 0x8000 0x80 =
      some { mapper1Sample with shift := ShiftRegister.reset } :=
  c3_amended_reset_write mapper1Sample 0x8000 0x80 (by decide) (by decide)
    (by decide)

/-- C10: the `period - 1` reload in `DmcChannel::tick_shift` cannot
underflow when `period ≥ 1`; and starting from `DmcChannel::new`
(`period = 0`), enabling the channel through `$4015` before any `$4010`
write makes the very first `tick_sequencer` evaluate `0 - 1` on a `u8` —
an 8-bit underflow (`none`). -/
theorem c10_dmc_period_underflow :
    (∀ d : DmcChannel, 1 ≤ d.period →
      (DmcChannel.tickShift d).isSome = true) ∧
    DmcChannel.tickSequencer (DmcChannel.setEnabled DmcChannel.new true) =
      none ∧
    (DmcChannel.setEnabled DmcChannel.new true).period = 0 := by
  refine ⟨?_, rfl, rfl⟩
  intro d h
  unfold DmcChannel.tickShift
  by_cases hc : d.counter = 0
  · rw [if_pos hc, if_neg (by omega)]
    dsimp only
    split
    · rfl
    · rfl
  · rw [if_neg hc]
    rfl

/-- C10 witness: the no-underflow branch of the theorem applied at a
channel whose period was programmed (the smallest `PERIODS` entry). -/
theorem c10_witness :
    (DmcChannel.tickShift dmcWithPeriod).isSome = true :=
  c10_dmc_period_underflow.1 dmcWithPeriod (by decide)

/-- C9: once the MMC3 reload flag `irq_reset` is set, no operation of the
mapper (`write_prg_byte`, `write_chr_byte`, `signal_scanline`) ever clears
it; with it set, every `signal_scanline` reloads the counter from
`irq_period` (so the counter never counts down again) and raises the IRQ
flag whenever IRQs are enabled. -/
theorem c9_mmc3_irq_reset_latched :
    (∀ (m : Mapper4) (a v : Nat) (m' : Mapper4),
      Mapper4.writePrgByte m a v = some m' →
      m.irqReset = true → m'.irqReset = true) ∧
    (∀ (m : Mapper4) (a v : Nat),
      (Mapper4.writeChrByte m a v).irqReset = m.irqReset) ∧
    (∀ m : Mapper4, (Mapper4.signalScanline m).irqReset = m.irqReset) ∧
    (∀ m : Mapper4, m.irqReset = true →
      (Mapper4.signalScanline m).irqCounter = m.irqPeriod ∧
      (m.irqEnabled = true → (Mapper4.signalScanline m).irqFlag = true)) := by
  refine ⟨?_, fun m a v => rfl, ?_, ?_⟩
  · intro m a v m' h hr
    unfold Mapper4.writePrgByte at h
    repeat' split at h
    all_goals
      first
        | (rcases Option.map_eq_some'.mp h with ⟨ram, -, rfl⟩; exact hr)
        | (cases h; exact hr)
        | (cases h; rfl)
  · intro m
    unfold Mapper4.signalScanline
    split
    · split
      · rfl
      · rfl
    · rfl
  · intro m hr
    unfold Mapper4.signalScanline
    rw [if_pos (Or.inr hr)]
    dsimp only
    constructor
    · split
      · rfl
      · rfl
    · intro he
      rw [if_pos he]

/-- C9 witness: the theorem applied at the sample MMC3 state whose reload
flag is set. -/
theorem c9_witness :
    (Mapper4.signalScanline mapper4Sample).irqCounter =
      mapper4Sample.irqPeriod ∧
    (Mapper4.signalScanline mapper4Sample).irqFlag = true ∧
    (Mapper4.signalScanline mapper4Sample).irqReset = mapper4Sample.irqReset :=
  ⟨(c9_mmc3_irq_reset_latched.2.2.2 mapper4Sample rfl).1,
   (c9_mmc3_irq_reset_latched.2.2.2 mapper4Sample rfl).2 rfl,
   c9_mmc3_irq_reset_latched.2.2.1 mapper4Sample⟩

/-- C2 counterexample: after a `$2005` second write stored `fine_y = 4`
(setting bit 14 of `t`), two `$2006` writes of `h = 0`, `l = 0` leave
`v = 0x4000`, not the composed value `0` — `set_high_byte` only touches
bits 8–13, so bit 14 is not cleared. -/
theorem c2_counterexample_bit14_not_cleared :
    registersAfter2006Trace.latch = false ∧
    registersAfter2006Trace.vAddress = 0x4000 ∧
    Address.get registersAfter2006Trace.vAddress = 0x4000 ∧
    (((0 &&& 0x3F) <<< 8) ||| 0 : Nat) = 0 ∧
    (0x4000 : Nat) ≠ 0 := by decide

/-- C2 (amended): from any register-file state with the write latch clear,
two `$2006` writes `h` then `l` give `v = t`, the low 14 bits of `v` (the
`address()` field) equal the composed value `((h & 0x3F) << 8) | l`, and
bit 14 of `v` equals the prior bit 14 of `t` — it is preserved, not
cleared. -/
theorem c2_amended_ppuaddr_writes (r : Registers) (h l : Nat)
    (hl : r.latch = false) :
    ((r.writeAddress h).writeAddress l).vAddress =
      ((r.writeAddress h).writeAddress l).tAddress ∧
    Address.address ((r.writeAddress h).writeAddress l).vAddress =
      h % 64 * 256 + l % 256 ∧
    ((r.writeAddress h).writeAddress l).vAddress / 2 ^ 14 % 2 =
      r.tAddress % 65536 / 2 ^ 14 % 2 := by
  have h1 : r.writeAddress h =
      { r with tAddress := Address.setHighByte r.tAddress h, latch := true } := by
    unfold Registers.writeAddress
    rw [if_neg (by rw [hl]; exact Bool.false_ne_true)]
    rw [hl]
    rfl
  have h2 : ({ r with tAddress := Address.setHighByte r.tAddress h, latch := true } : Registers).writeAddress l = { r with tAddress := Address.setLowByte (Address.setHighByte r.tAddress h) l, vAddress := Address.setLowByte (Address.setHighByte r.tAddress h) l, latch := false } := by
    unfold Registers.writeAddress
    rw [if_pos rfl]
    rfl
  rw [h1, h2]
  refine ⟨rfl, ?_, ?_⟩
  · unfold Address.address Address.getField Address.setLowByte
      Address.setHighByte Address.setField
    norm_num
    omega
  · unfold Address.setLowByte Address.setHighByte Address.setField
    norm_num
    omega

/-- C2 witness for the amended theorem at a concrete input: the trace state
(whose latch is clear and whose `t` has bit 14 set) with `h = 0x21`,
`l = 0x08`. -/
theorem c2_witness :
    ((registersAfter2006Trace.writeAddress 0x21).writeAddress 0x08).vAddress =
      ((registersAfter2006Trace.writeAddress 0x21).writeAddress
        0x08).tAddress ∧
    Address.address ((registersAfter2006Trace.writeAddress
        0x21).writeAddress 0x08).vAddress = 0x21 % 64 * 256 + 0x08 % 256 ∧
    ((registersAfter2006Trace.writeAddress 0x21).writeAddress
        0x08).vAddress / 2 ^ 14 % 2 =
      registersAfter2006Trace.tAddress % 65536 / 2 ^ 14 % 2 :=
  c2_amended_ppuaddr_writes registersAfter2006Trace 0x21 0x08 (by decide)

/-- One counting bus tick: the cycle counter advances by one (mod `2^64`),
the APU is ticked exactly once, the PPU exactly three times, and the NMI
schedule is ticked; nothing else changes. -/
theorem countingTick_eq (s : Bus Nat Nat Unit) :
    Bus.countingTick s =
      { s with cycles := (s.cycles + 1) % 2 ^ 64,
               apu := s.apu + 1,
               ppu := s.ppu + 1 + 1 + 1,
               nmi := Interrupt.tick s.nmi } := by
  unfold Bus.countingTick Bus.tick Bus.handlePpuResult
  dsimp only
  split
  · rfl
  · rfl

/-- C1: for every CPU cycle, `Bus::tick` increments the 64-bit cycle
counter by exactly one, ticks the APU exactly once and the PPU exactly
three times; hence after `c` calls from a state whose counter is a valid
`u64` value, the PPU has advanced `3c` dots, the APU `c` cycles, and the
cycle counter reads `(cycles + c) mod 2^64`. -/
theorem c1_bus_tick_rates (c : Nat) (s : Bus Nat Nat Unit)
    (hc : s.cycles < 2 ^ 64) :
    (Bus.countingTick^[c] s).apu = s.apu + c ∧
    (Bus.countingTick^[c] s).ppu = s.ppu + 3 * c ∧
    (Bus.countingTick^[c] s).cycles = (s.cycles + c) % 2 ^ 64 := by
  induction c generalizing s with
  | zero =>
    rw [Function.iterate_zero_apply]
    refine ⟨rfl, rfl, ?_⟩
    omega
  | succ n ih =>
    rw [Function.iterate_succ_apply]
    have hstep := countingTick_eq s
    have hlt : (Bus.countingTick s).cycles < 2 ^ 64 := by
      rw [hstep]
      exact Nat.mod_lt _ (by norm_num)
    obtain ⟨ha, hp, hcy⟩ := ih (Bus.countingTick s) hlt
    refine ⟨?_, ?_, ?_⟩
    · rw [ha, hstep]
      dsimp only
      omega
    · rw [hp, hstep]
      dsimp only
      omega
    · rw [hcy, hstep]
      dsimp only
      rw [Nat.mod_add_mod]
      omega

/-- C1 witness: two ticks from the `Bus::new` counting state. -/
theorem c1_witness :
    (Bus.countingTick^[2] busNewCounting).apu = busNewCounting.apu + 2 ∧
    (Bus.countingTick^[2] busNewCounting).ppu = busNewCounting.ppu + 3 * 2 ∧
    (Bus.countingTick^[2] busNewCounting).cycles =
      (busNewCounting.cycles + 2) % 2 ^ 64 :=
  c1_bus_tick_rates 2 busNewCounting (by norm_num [busNewCounting])

end NesRust
